import Mathlib

/-!
Verification development for the ShopHelper shopping-agent backend.

The Python sources under `src/backend` are shallowly embedded below:
pure functions become Lean functions on `List Char` / `String` / `ℚ`,
dictionaries with a fixed key set become structures, Python `set`s become
`Finset`s (the specification treats their order as not significant),
`None`-able values become `Option`s, and `try/except` blocks become a
match on an abstract fault of the protected body.  Numeric values are
modelled with `ℚ`; wall-clock readings are modelled as `0`.
-/

namespace ShopHelper

/-! ## Character and list utilities shared by the embedding -/

/-- Characters stripped by Python `str.strip()` (the `str.isspace` class). -/
def pySpace (c : Char) : Bool :=
  c.toNat ∈ [9, 10, 11, 12, 13, 28, 29, 30, 31, 32, 0x85, 0xa0, 0x1680,
    0x2000, 0x2001, 0x2002, 0x2003, 0x2004, 0x2005, 0x2006, 0x2007, 0x2008,
    0x2009, 0x200a, 0x2028, 0x2029, 0x202f, 0x205f, 0x3000]

/-- Python `str.replace(old, new)` for a single-character `old`. -/
def replChar (old : Char) (new : List Char) : List Char → List Char
  | [] => []
  | c :: t => if c = old then new ++ replChar old new t else c :: replChar old new t

/-- Python `str.replace("\r\n", "\n")`: collapse each CRLF pair, left to right. -/
def crlfPair : List Char → List Char
  | [] => []
  | [c] => [c]
  | c :: d :: t =>
    if c = Char.ofNat 13 ∧ d = Char.ofNat 10 then Char.ofNat 10 :: crlfPair t
    else c :: crlfPair (d :: t)

theorem length_dropWhile_le (p : α → Bool) (l : List α) :
    (l.dropWhile p).length ≤ l.length :=
  (List.dropWhile_suffix p).sublist.length_le

theorem tail_dropWhile_lt (p : α → Bool) (c : α) (l : List α) :
    ((l.dropWhile p).tail).length < (c :: l).length := by
  have h1 := length_dropWhile_le p l
  have h2 := (l.dropWhile p).length_tail
  simp only [List.length_cons]
  omega

/-- Recursion worker for `removeTags`, structural on a fuel bound that the
wrapper sets to the list length (each step consumes at least one
character, so the fuel never runs out on the wrapper's calls). -/
def removeTagsAux : Nat → List Char → List Char
  | 0, _ => []
  | _, [] => []
  | fuel + 1, c :: rest =>
    if c = '<' then
      if (rest.takeWhile (fun d => d ≠ '>')) ≠ [] ∧
          (rest.dropWhile (fun d => d ≠ '>')) ≠ [] then
        removeTagsAux fuel ((rest.dropWhile (fun d => d ≠ '>')).tail)
      else c :: removeTagsAux fuel rest
    else c :: removeTagsAux fuel rest

/-- Embedding of `re.sub(r"<[^>]+>", "", text)`: at each `<` that is followed
by one or more non-`>` characters and then a `>`, the whole bracketed group is
removed; any other character is kept. -/
def removeTags (l : List Char) : List Char :=
  removeTagsAux l.length l

/-- Python-style strip of both ends of a character list. -/
def pyStrip (l : List Char) : List Char :=
  ((l.dropWhile pySpace).reverse.dropWhile pySpace).reverse

/-- Embedding of `utils.helpers.sanitize_input`: empty (falsy) input yields
`""`; otherwise HTML tags are removed, the five special characters are
escaped to entities, newlines are normalised and the ends are stripped. -/
def sanitize_input (text : String) : String :=
  if text = "" then "" else
  let s1 := removeTags text.data
  let s2 := replChar '&' "&amp;".data s1
  let s3 := replChar '<' "&lt;".data s2
  let s4 := replChar '>' "&gt;".data s3
  let s5 := replChar (Char.ofNat 34) "&quot;".data s4
  let s6 := replChar (Char.ofNat 39) "&#x27;".data s5
  let s7 := replChar (Char.ofNat 13) [Char.ofNat 10] (crlfPair s6)
  String.mk (pyStrip s7)

/-! ## Keyword extraction and similarity (`utils/helpers.py`) -/

/-- ASCII lowering of a character, as applied by Python `str.lower` to the
ASCII range.  The sources only match lowercase-ASCII or Japanese patterns,
so the embedding does not model case folding of non-ASCII cased letters. -/
def lowerChar (c : Char) : Char :=
  if 'A' ≤ c ∧ c ≤ 'Z' then Char.ofNat (c.toNat + 32) else c

/-- Python `str.lower` over the modelled character class. -/
def lowerStr (s : String) : String :=
  String.mk (s.data.map lowerChar)

/-- Word-constituent characters for the regex `\w`.  ASCII alphanumerics and
underscore are exact; all non-ASCII characters are treated as word
constituents, which covers the Japanese letters used by the sources (no
settled claim depends on non-ASCII punctuation boundaries). -/
def isWordChar (c : Char) : Bool :=
  c.isAlphanum || c = '_' || 0x80 ≤ c.toNat

/-- Maximal runs of word characters, i.e. the matches of `\b\w+\b`. -/
def wordRuns : List Char → List (List Char)
  | [] => []
  | c :: t =>
    if isWordChar c then
      (c :: t.takeWhile isWordChar) :: wordRuns (t.dropWhile isWordChar)
    else wordRuns t
termination_by l => l.length
decreasing_by
  · have := length_dropWhile_le isWordChar t
    simp only [List.length_cons]; omega
  · simp only [List.length_cons]; omega

/-- Stop-word set of `extract_keywords` (transcribed from the source). -/
def stopWords : List String :=
  ["の", "に", "は", "を", "が", "で", "と", "から", "まで",
   "です", "ます", "ください", "お願い", "ありがとう",
   "the", "a", "an", "and", "or", "but", "in", "on", "at", "to", "for"]

/-- Embedding of `utils.helpers.extract_keywords`: lowercase, take the `\w+`
runs, drop stop words and one-character words, and deduplicate.  Python
returns `list(set(...))` in unspecified order; the embedding fixes the
first-occurrence order, and all uses downstream are order-insensitive. -/
def extract_keywords (text : String) : List String :=
  if text = "" then [] else
  let words := (wordRuns (lowerStr text).data).map String.mk
  (words.filter (fun w => !(stopWords.contains w) && w.length > 1)).dedup

/-- Embedding of `utils.helpers.calculate_similarity`: Jaccard similarity of
the keyword sets, `0` when either text or either keyword set is empty. -/
def calculate_similarity (text1 text2 : String) : ℚ :=
  if text1 = "" ∨ text2 = "" then 0 else
  let k1 := (extract_keywords text1).toFinset
  let k2 := (extract_keywords text2).toFinset
  if k1 = ∅ ∨ k2 = ∅ then 0
  else if 0 < (k1 ∪ k2).card then ((k1 ∩ k2).card : ℚ) / ((k1 ∪ k2).card : ℚ)
  else 0

/-- Embedding of `utils.helpers.truncate_text`. -/
def truncate_text (text : String) (max_length : Nat := 1000) : String :=
  if text.length ≤ max_length then text
  else String.mk (text.data.take (max_length - 3)) ++ "..."

/-- Digits of a natural number, most significant first. -/
def natDigits (n : Nat) : List Char :=
  (Nat.toDigits 10 n)

/-- Insert a separator after every third element (input least significant
digit first). -/
def groupRev : List Char → List Char
  | a :: b :: c :: d :: t => a :: b :: c :: ',' :: groupRev (d :: t)
  | l => l

/-- Thousands grouping of a digit list (digits given most significant first). -/
def groupDigits (ds : List Char) : List Char :=
  (groupRev ds.reverse).reverse

/-- Embedding of `utils.helpers.format_price` for the JPY branch on integral
amounts, the only amounts the sources produce: `¥` followed by the
comma-grouped digits (`f"¥{price:,.0f}"`). -/
def format_price (price : ℚ) : String :=
  String.mk ('¥' :: groupDigits (natDigits price.num.toNat))

/-! ## Preferences and merging (`agents/user_preference_agent.py`)

A preferences dictionary has the seven keys produced by
`_extract_preferences_from_message`; a missing key in an existing session
dictionary behaves exactly like `None` (scalars) or `[]` (lists) through
`dict.get`, so the embedding uses a structure with those defaults.  Python
list values are deduplicated through `list(set(...))` by the merger and are
consumed only through membership tests, so they are modelled as `Finset`s. -/

structure Preferences where
  price_range : Option String := none
  quality : Option String := none
  brands : Finset String := ∅
  categories : Finset String := ∅
  features : Finset String := ∅
  excluded_items : Finset String := ∅
  keywords : Finset String := ∅
deriving DecidableEq

/-- Embedding of `UserPreferenceAgent._merge_preferences`.  Per incoming key:
a `None` or `[]` value is skipped; the keys `brands`, `categories`,
`features` and `excluded_items` are unioned with the existing value; every
other key — the scalars and also `keywords`, which is absent from the
union list in the source — is overwritten by the incoming value. -/
def merge_preferences (existing new : Preferences) : Preferences where
  price_range := match new.price_range with
    | some v => some v
    | none => existing.price_range
  quality := match new.quality with
    | some v => some v
    | none => existing.quality
  brands := if new.brands = ∅ then existing.brands else existing.brands ∪ new.brands
  categories := if new.categories = ∅ then existing.categories
    else existing.categories ∪ new.categories
  features := if new.features = ∅ then existing.features
    else existing.features ∪ new.features
  excluded_items := if new.excluded_items = ∅ then existing.excluded_items
    else existing.excluded_items ∪ new.excluded_items
  keywords := if new.keywords = ∅ then existing.keywords else new.keywords

/-! ## Products, filtering and price buckets (`agents/product_search_agent.py`) -/

structure Product where
  id : String
  name : String
  price : ℚ
  description : String
  category : String
  brand : String
  rating : ℚ
  review_count : Nat := 0
  features : List String := []
deriving DecidableEq, Repr

/-- Containment of one character sequence in another (Python `in` on str). -/
def containsSub (needle hay : List Char) : Bool :=
  decide (needle <:+: hay)

/-- Price ceilings of `_filter_by_price_range`; `none` is the unbounded
`float('inf')` ceiling used for `very_high` and for unknown keys. -/
def price_threshold (price_range : String) : Option ℚ :=
  if price_range = "very_low" then some 5000
  else if price_range = "low" then some 15000
  else if price_range = "medium" then some 50000
  else if price_range = "high" then some 100000
  else none

/-- Embedding of `ProductSearchAgent._filter_by_price_range`. -/
def filter_by_price_range (products : List Product) (price_range : String) :
    List Product :=
  products.filter fun p =>
    match price_threshold price_range with
    | some t => decide (p.price ≤ t)
    | none => true

/-- Query predicate of `_filter_products_by_preferences`: case-insensitive
substring match across name, description, category and brand. -/
def queryMatches (query : String) (p : Product) : Bool :=
  let q := (lowerStr query).data
  containsSub q (lowerStr p.name).data || containsSub q (lowerStr p.description).data ||
    containsSub q (lowerStr p.category).data || containsSub q (lowerStr p.brand).data

/-- Embedding of `ProductSearchAgent._filter_products_by_preferences`:
the six filters applied in sequence, each one skipped when its preference
field is empty. -/
def filter_products_by_preferences (products : List Product) (query : String)
    (preferences : Preferences) : List Product :=
  let f1 := if query = "" then products else products.filter (queryMatches query)
  let f2 := match preferences.price_range with
    | some r => filter_by_price_range f1 r
    | none => f1
  let f3 := if preferences.brands = ∅ then f2
    else f2.filter (fun p => decide (p.brand ∈ preferences.brands))
  let f4 := if preferences.categories = ∅ then f3
    else f3.filter (fun p => decide (p.category ∈ preferences.categories))
  let f5 := if preferences.features = ∅ then f4
    else f4.filter (fun p => p.features.any (fun ft => decide (ft ∈ preferences.features)))
  if preferences.excluded_items = ∅ then f5
  else f5.filter (fun p =>
    decide (∀ e ∈ preferences.excluded_items, ¬ containsSub e.data (lowerStr p.name).data = true))

/-! ## Relevance ranking (`utils/helpers.py: sort_products_by_relevance`) -/

/-- Relevance score of one product for a query, mirroring the accumulation
in `sort_products_by_relevance` (a similarity term is skipped when the
corresponding text field is empty, and `rating` defaults to `0.0`). -/
def relevance_score (query : String) (p : Product) : ℚ :=
  (if p.name = "" then 0 else calculate_similarity query p.name * (2/5)) +
  (if p.description = "" then 0 else calculate_similarity query p.description * (3/10)) +
  (if p.category = "" then 0 else calculate_similarity query p.category * (1/5)) +
  p.rating * (1/10)

/-- Embedding of `sort_products_by_relevance`: empty product list or empty
query is returned unchanged; otherwise the products are sorted by
descending score with Python's stable sort, modelled by the stable
`List.mergeSort` with the reversed comparator. -/
def sort_products_by_relevance (products : List Product) (query : String) :
    List Product :=
  if products = [] ∨ query = "" then products
  else products.mergeSort (fun a b => decide (relevance_score query b ≤ relevance_score query a))

/-! ## Conversation agent (`agents/conversation_agent.py`) -/

/-- Greeting patterns (plain-text regexes, hence substring tests). -/
def greeting_patterns : List String :=
  ["こんにちは", "はじめまして", "おはよう", "こんばんは",
   "hello", "hi", "good morning", "good evening"]

def farewell_patterns : List String :=
  ["さようなら", "ありがとう", "お疲れ様", "失礼します",
   "goodbye", "bye", "thank you", "thanks"]

def help_patterns : List String :=
  ["ヘルプ", "使い方", "説明", "サポート", "help", "how to", "support"]

def search_intent_patterns : List String :=
  ["探したい", "検索", "見つけたい", "買いたい", "search", "find", "look for", "buy"]

def question_indicators : List String :=
  ["?", "？", "ですか", "でしょうか", "か", "what", "how", "why", "when", "where"]

/-- Pattern-set test used by `_is_greeting` and friends: lowercase the
message and look for any pattern as a substring. -/
def matchesAny (patterns : List String) (message : String) : Bool :=
  patterns.any (fun pat => containsSub pat.data (lowerStr message).data)

/-- Entity record of `_extract_product_entities`; a `none` field is a key
left at `None`. -/
structure Entities where
  product_name : Option String := none
  category : Option String := none
  price_range : Option (List String) := none
  brand : Option String := none
deriving DecidableEq, Repr

/-- Matches of a regex `(\d+)suffix`: captured digit groups of each
non-overlapping occurrence, scanning left to right. -/
def digitMatches (suffix : List Char) : List Char → List String
  | [] => []
  | c :: t =>
    if c.isDigit then
      if suffix.isPrefixOf (t.dropWhile Char.isDigit) then
        String.mk (c :: t.takeWhile Char.isDigit) ::
          digitMatches suffix ((t.dropWhile Char.isDigit).drop suffix.length)
      else digitMatches suffix (t.dropWhile Char.isDigit)
    else digitMatches suffix t
termination_by l => l.length
decreasing_by
  · have h1 := length_dropWhile_le Char.isDigit t
    have h2 := (t.dropWhile Char.isDigit).length_drop suffix.length
    simp only [List.length_cons]; omega
  · have h1 := length_dropWhile_le Char.isDigit t
    simp only [List.length_cons]; omega
  · simp only [List.length_cons]; omega

/-- Price regex list of `_extract_product_entities`, in source order. -/
def entity_price_patterns : List (List Char) :=
  ["円".data, "万円".data, "千円".data, "yen".data, "万".data, "k".data]

/-- First price pattern with a match wins. -/
def extractPriceEntity : List (List Char) → String → Option (List String)
  | [], _ => none
  | suf :: rest, message =>
    match digitMatches suf message.data with
    | [] => extractPriceEntity rest message
    | ms => some ms

def entity_categories : List String :=
  ["電化製品", "服", "本", "食品", "化粧品", "スポーツ", "家具", "玩具"]

def entity_brands : List String :=
  ["Apple", "Sony", "Panasonic", "Nike", "Adidas", "Uniqlo"]

/-- Embedding of `ConversationAgent._extract_product_entities`. -/
def extract_product_entities (message : String) : Entities where
  product_name := none
  category := (entity_categories.filter
    (fun cat => containsSub cat.data message.data)).head?
  price_range := extractPriceEntity entity_price_patterns message
  brand := (entity_brands.filter
    (fun b => containsSub (lowerStr b).data (lowerStr message).data)).head?

/-- Intent record produced by `analyze_intent`. -/
structure Intent where
  requires_product_search : Bool := false
  intent_type : String := "unknown"
  confidence : ℚ := 0
  keywords : List String := []
  entities : Entities := {}
deriving DecidableEq, Repr

/-- Embedding of `ConversationAgent.analyze_intent` on its non-raising path:
sanitize, extract keywords, then test the categories in source order —
greeting, farewell, help, search intent, question — with fixed
confidences, defaulting to `product_search` at confidence `0.5`. -/
def analyze_intent (message : String) : Intent :=
  let s := sanitize_input message
  let kws := extract_keywords s
  if matchesAny greeting_patterns s then
    { intent_type := "greeting", confidence := 9/10, keywords := kws }
  else if matchesAny farewell_patterns s then
    { intent_type := "farewell", confidence := 9/10, keywords := kws }
  else if matchesAny help_patterns s then
    { intent_type := "help", confidence := 8/10, keywords := kws }
  else if matchesAny search_intent_patterns s then
    { intent_type := "product_search", requires_product_search := true,
      confidence := 7/10, keywords := kws, entities := extract_product_entities s }
  else if question_indicators.any (fun q => containsSub q.data (lowerStr s).data) then
    { intent_type := "question", confidence := 6/10, keywords := kws }
  else
    { intent_type := "product_search", requires_product_search := true,
      confidence := 5/10, keywords := kws }

/-- Response template pools of the conversation agent, keyed as in the
source dictionary. -/
def conv_response_templates (key : String) : List String :=
  if key = "greeting" then
    ["こんにちは！お買い物エージェントです。何かお探しの商品はありますか？",
     "はじめまして！買い物のお手伝いをさせていただきます。何かご質問はありますか？",
     "こんにちは！商品検索のお手伝いをいたします。何をお探しでしょうか？"]
  else if key = "farewell" then
    ["ありがとうございました。また何かございましたらお気軽にお声かけください。",
     "お疲れ様でした。またのご利用をお待ちしております。",
     "ご利用ありがとうございました。何かありましたらいつでもどうぞ。"]
  else if key = "help" then
    ["使い方についてご説明いたします。商品名やカテゴリを教えていただければ、最適な商品をご提案いたします。",
     "サポートいたします。商品検索、価格比較、お気に入り登録など、様々な機能をご利用いただけます。",
     "ご質問にお答えします。商品の詳細情報、レビュー、価格比較など、お買い物に役立つ情報をお届けします。"]
  else if key = "search_intent" then
    ["商品検索を開始いたします。より詳しい情報を教えていただけますか？",
     "検索いたします。価格帯やブランドなど、ご希望があればお聞かせください。",
     "商品をお探ししますね。どのような商品をお考えでしょうか？"]
  else
    ["申し訳ございません。もう少し詳しく教えていただけますか？",
     "ご質問の内容を理解できませんでした。別の表現でお聞かせください。",
     "すみません、もう一度お聞かせいただけますでしょうか？"]

/-- Model of `random.choice` on a non-empty pool: the process-wide random
generator is abstracted into an index parameter reduced modulo the pool
size (every choice the code can make is some such index). -/
def randomChoice (pool : List String) (pick : Nat) : String :=
  pool.getD (pick % pool.length) ""

/-- Embedding of `_generate_intent_response`. -/
def generate_intent_response (pick : Nat) (intent_type : String) : String :=
  if intent_type = "greeting" then randomChoice (conv_response_templates "greeting") pick
  else if intent_type = "farewell" then randomChoice (conv_response_templates "farewell") pick
  else if intent_type = "help" then randomChoice (conv_response_templates "help") pick
  else if intent_type = "product_search" then
    randomChoice (conv_response_templates "search_intent") pick
  else randomChoice (conv_response_templates "unknown") pick

/-- Embedding of the conversation agent's `_generate_suggestions`. -/
def conv_generate_suggestions (intent_type : String) : List String :=
  (if intent_type = "greeting" then
    ["商品を探したい", "おすすめ商品を教えて", "価格を比較したい"]
  else if intent_type = "product_search" then
    ["価格の安い商品を探したい", "高評価の商品を教えて", "商品の詳細を教えて"]
  else if intent_type = "help" then
    ["商品検索の使い方", "価格比較の方法", "お気に入り登録の方法"]
  else
    ["商品を探したい", "おすすめ商品を教えて", "使い方を教えて"]).take 3

/-- Conversation response record of `ConversationAgent.generate_response`. -/
structure ChatResponse where
  message : String
  intent : Intent
  suggestions : List String
  requires_action : Bool
deriving DecidableEq, Repr

/-- Embedding of `ConversationAgent.generate_response` on the non-raising
path. -/
def generate_response (pick : Nat) (message : String) : ChatResponse :=
  let intent := analyze_intent message
  { message := generate_intent_response pick intent.intent_type,
    intent := intent,
    suggestions := conv_generate_suggestions intent.intent_type,
    requires_action := intent.requires_product_search }

/-! ## Result aggregator (`agents/result_aggregator_agent.py`) -/

/-- Template pools of the aggregator, keyed as in the source dictionary. -/
def agg_response_templates (key : String) : List String :=
  if key = "no_results" then
    ["申し訳ございません。条件に合う商品が見つかりませんでした。別のキーワードや条件で検索してみてください。",
     "該当する商品が見つかりませんでした。価格帯やカテゴリを変更して再度お試しください。",
     "検索結果が0件でした。より一般的なキーワードで検索してみてください。"]
  else if key = "single_result" then
    ["見つかった商品をご紹介します。", "条件に合う商品を1件見つけました。", "検索結果をご確認ください。"]
  else if key = "multiple_results" then
    ["検索結果をご紹介します。", "条件に合う商品を複数見つけました。", "お探しの商品が見つかりました。"]
  else if key = "price_focus" then
    ["価格を重視した商品をご紹介します。", "お得な商品をピックアップしました。", "コストパフォーマンスの良い商品です。"]
  else
    ["品質を重視した商品をご紹介します。", "高評価の商品をピックアップしました。", "信頼できる商品です。"]

/-- Join a list of strings with a separator (Python `sep.join`). -/
def joinSep (sep : String) : List String → String
  | [] => ""
  | [x] => x
  | x :: y :: t => x ++ sep ++ joinSep sep (y :: t)

/-- Canonical listing of a `Finset String`.  Python iterates its `set`s in
unspecified order; rendered listings are modelled in sorted order. -/
def finsetList (s : Finset String) : List String :=
  s.sort (· ≤ ·)

/-- Embedding of `_generate_no_results_response`: a template from the
no-results pool plus the single highest-priority contextual clause. -/
def generate_no_results_response (pick : Nat) (preferences : Preferences) : String :=
  let base := randomChoice (agg_response_templates "no_results") pick
  if preferences.price_range = some "low" then
    base ++ " 価格を少し上げてみることをお勧めします。"
  else if preferences.brands ≠ ∅ then
    base ++ " " ++ joinSep ", " (finsetList preferences.brands) ++ "以外のブランドもご検討ください。"
  else if preferences.categories ≠ ∅ then
    base ++ " " ++ joinSep ", " (finsetList preferences.categories) ++ "以外のカテゴリもご検討ください。"
  else base

/-- Rendering of a rating as Python `str` renders the catalogue's one-decimal
float ratings. -/
def ratingStr (r : ℚ) : String :=
  String.mk (natDigits (r.num.toNat / 10)) ++ "." ++ String.mk (natDigits (r.num.toNat % 10))

/-- Embedding of `_generate_single_result_response`. -/
def generate_single_result_response (pick : Nat) (product : Product)
    (preferences : Preferences) : String :=
  let base := randomChoice (agg_response_templates "single_result") pick
  let r1 := base ++ "\n\n" ++ "【" ++ product.name ++ "】\n" ++
    "価格: " ++ format_price product.price ++ "\n"
  let r2 := if 0 < product.rating then r1 ++ "評価: " ++ ratingStr product.rating ++ "/5.0\n"
    else r1
  let r3 := if product.description = "" then r2
    else r2 ++ "説明: " ++ truncate_text product.description 100 ++ "\n"
  if preferences.price_range = some "low" then r3 ++ "\nこの商品はお求めやすい価格帯です。"
  else if preferences.quality = some "high" then r3 ++ "\nこの商品は高評価でおすすめです。"
  else r3

/-- Rendered block of one product in the many-results response, with its
one-based index. -/
def productBlock (idx : Nat) (product : Product) : String :=
  toString idx ++ ". " ++ product.name ++ "\n" ++
    "   価格: " ++ format_price product.price ++ "\n" ++
    (if 0 < product.rating then "   評価: " ++ ratingStr product.rating ++ "/5.0\n" else "") ++
    "\n"

/-- Loop of `_generate_multiple_results_response` over the enumerated top
three products. -/
def renderBlocks (idx : Nat) : List Product → String
  | [] => ""
  | p :: t => productBlock idx p ++ renderBlocks (idx + 1) t

/-- Template pool picked by the many-results branch: price-focused for a
`low` price preference, quality-focused for a `high` quality preference,
generic otherwise. -/
def multiPool (preferences : Preferences) : List String :=
  if preferences.price_range = some "low" then agg_response_templates "price_focus"
  else if preferences.quality = some "high" then agg_response_templates "quality_focus"
  else agg_response_templates "multiple_results"

/-- Embedding of `_generate_multiple_results_response`. -/
def generate_multiple_results_response (pick : Nat) (products : List Product)
    (preferences : Preferences) (total_count : Nat) : String :=
  let base := randomChoice (multiPool preferences) pick
  let head := base ++ "\n" ++ "検索結果: " ++ toString total_count ++ "件\n\n"
  let body := head ++ renderBlocks 1 (products.take 3)
  if 3 < total_count then
    body ++ "他にも" ++ toString (total_count - 3) ++ "件の商品があります。詳細は商品一覧をご確認ください。"
  else body

/-- Display form of one product built by `_format_products_for_display`. -/
structure DisplayProduct where
  id : String
  name : String
  price : ℚ
  formatted_price : String
  description : String
  category : String
  brand : String
  rating : ℚ
  review_count : Nat
  features : List String
deriving DecidableEq, Repr

/-- Embedding of `_format_products_for_display` (store data is constant in
the embedding, so the optional store-minimum fields are omitted). -/
def format_products_for_display (products : List Product) : List DisplayProduct :=
  products.map fun p =>
    { id := p.id, name := p.name, price := p.price,
      formatted_price := format_price p.price,
      description := truncate_text p.description 150,
      category := p.category, brand := p.brand, rating := p.rating,
      review_count := p.review_count, features := p.features }

/-- Embedding of the aggregator's `_generate_suggestions`. -/
def agg_generate_suggestions (products : List Product) : List String :=
  (if products = [] then
    ["価格を変更して検索", "カテゴリを変更して検索", "別のキーワードで検索"]
  else
    (if 1 < products.length then ["商品を比較する"] else []) ++
    (if products ≠ [] ∧
        10000 < ((products.map Product.price).max?.getD 0 -
          (products.map Product.price).min?.getD 0) then
      ["価格の安い順で並び替え", "価格の高い順で並び替え"] else []) ++
    (if products.any (fun p => decide ((9:ℚ)/2 ≤ p.rating)) then ["高評価商品のみ表示"] else []) ++
    (if 1 < ((products.filter (fun p => p.brand ≠ "")).map Product.brand).toFinset.card then
      ["ブランドで絞り込み"] else [])).take 5

/-! ## Search results and the defensive stage wrappers
(`agents/product_search_agent.py`, `main.py`, § 7 of the spec) -/

/-- Applied-filter record of `_get_applied_filters`: a key is present
exactly when the preference field is non-empty. -/
structure FiltersApplied where
  price_range : Option String := none
  brands : Finset String := ∅
  categories : Finset String := ∅
  features : Finset String := ∅
deriving DecidableEq

/-- Embedding of `ProductSearchAgent._get_applied_filters`. -/
def get_applied_filters (preferences : Preferences) : FiltersApplied where
  price_range := preferences.price_range
  brands := preferences.brands
  categories := preferences.categories
  features := preferences.features

/-- Search-result record returned by `search_products`; the wall-clock
`search_time` is modelled as `0`. -/
structure SearchResult where
  products : List Product
  total_count : Nat
  search_time : ℚ := 0
  query : String
  filters_applied : FiltersApplied := {}
deriving DecidableEq

/-- Body of `ProductSearchAgent.search_products` on its non-raising path:
filter the catalogue by query and accumulated preferences, sort by
relevance, and package the result. -/
def search_products_body (catalog : List Product) (query : String)
    (user_preferences : Preferences) : SearchResult :=
  let filtered := filter_products_by_preferences catalog query user_preferences
  let sorted := sort_products_by_relevance filtered query
  { products := sorted, total_count := sorted.length, query := query,
    filters_applied := get_applied_filters user_preferences }

/-- Fallback value of the `except` clause of `search_products`. -/
def search_products_fallback (query : String) : SearchResult :=
  { products := [], total_count := 0, search_time := 0, query := query,
    filters_applied := {} }

/-- Embedding of `ProductSearchAgent.search_products` with its `try/except`:
a fault anywhere in the body is modelled by `some fault`, and the
`except` clause answers the neutral empty result. -/
def search_products (catalog : List Product) (query : String)
    (user_preferences : Preferences) (fault : Option String) : SearchResult :=
  match fault with
  | none => search_products_body catalog query user_preferences
  | some _ => search_products_fallback query

/-- Fallback intent of the `except` clause of `analyze_intent`. -/
def unknown_intent_fallback : Intent :=
  { requires_product_search := false, intent_type := "unknown", confidence := 0,
    keywords := [], entities := {} }

/-- Embedding of `ConversationAgent.analyze_intent` with its `try/except`. -/
def analyze_intent_defensive (message : String) (fault : Option String) : Intent :=
  match fault with
  | none => analyze_intent message
  | some _ => unknown_intent_fallback

/-- Aggregated response record of `ResultAggregatorAgent.generate_response`. -/
structure AggResponse where
  message : String
  products : List DisplayProduct
  total_count : Nat
  search_time : ℚ
  suggestions : List String
  has_products : Bool
deriving DecidableEq

/-- Body of `ResultAggregatorAgent.generate_response` on its non-raising
path: branch on the result cardinality, then attach suggestions and the
display products. -/
def agg_generate_response_body (pick : Nat) (search_results : SearchResult)
    (preferences : Preferences) : AggResponse :=
  let products := search_results.products
  let total_count := search_results.total_count
  let response :=
    if total_count = 0 then generate_no_results_response pick preferences
    else if total_count = 1 then
      generate_single_result_response pick (products.headD
        { id := "", name := "商品", price := 0, description := "", category := "",
          brand := "", rating := 0 }) preferences
    else generate_multiple_results_response pick products preferences total_count
  { message := response,
    products := format_products_for_display products,
    total_count := total_count,
    search_time := search_results.search_time,
    suggestions := agg_generate_suggestions products,
    has_products := 0 < total_count }

/-- Fallback value of the `except` clause of the aggregator's
`generate_response`: the generic apology with an empty, well-formed body. -/
def agg_generate_response_fallback : AggResponse :=
  { message := "申し訳ございません。エラーが発生しました。", products := [],
    total_count := 0, search_time := 0, suggestions := [], has_products := false }

/-- Embedding of `ResultAggregatorAgent.generate_response` with its
`try/except`. -/
def agg_generate_response (pick : Nat) (search_results : SearchResult)
    (preferences : Preferences) (fault : Option String) : AggResponse :=
  match fault with
  | none => agg_generate_response_body pick search_results preferences
  | some _ => agg_generate_response_fallback

/-! ## Session history (`session/session_manager.py`, `main.py`) -/

/-- Message record of the conversation history. -/
structure Message where
  role : String
  content : String
  timestamp : String
deriving DecidableEq, Repr

/-- Embedding of `SessionManager.add_conversation_message` on the history
list: append, then keep only the last `100` entries. -/
def add_conversation_message (history : List Message) (msg : Message) :
    List Message :=
  let h := history ++ [msg]
  if 100 < h.length then h.drop (h.length - 100) else h

/-- History effect of one `/api/chat` turn in `main.py`: the endpoint
appends the user message and the assistant message directly to
`session_data["conversation_history"]` (not through
`add_conversation_message`), and `update_session` stores the list as is. -/
def chat_turn_history (history : List Message) (userMsg assistantMsg : Message) :
    List Message :=
  history ++ [userMsg] ++ [assistantMsg]

/-- Embedding of `SessionManager.add_search_history` on the search-history
list: append, then keep only the last `50` entries. -/
def add_search_history (history : List (String × Nat)) (rec : String × Nat) :
    List (String × Nat) :=
  let h := history ++ [rec]
  if 50 < h.length then h.drop (h.length - 50) else h

/-! ## Concrete sample data used by counterexamples and witnesses -/

/-- Sample product with brand `Samsung`. -/
def cexSamsung : Product :=
  { id := "p1", name := "Galaxy", price := 1000, description := "phone",
    category := "electronics", brand := "Samsung", rating := 4 }

/-- Preferences holding only a brand constraint `{"Apple"}`. -/
def prefsAppleOnly : Preferences := { brands := {"Apple"} }

/-- Extracted preferences holding only a brand constraint `{"Samsung"}`. -/
def prefsSamsungOnly : Preferences := { brands := {"Samsung"} }

/-- Extracted preferences holding only a feature constraint. -/
def extraFeatures : Preferences := { features := {"5G"} }

/-- Sample product with rating `0`. -/
def cexRatingZero : Product :=
  { id := "a", name := "Alpha", price := 10, description := "", category := "",
    brand := "", rating := 0 }

/-- Sample product with rating `5`. -/
def cexRatingFive : Product :=
  { id := "b", name := "Beta", price := 20, description := "", category := "",
    brand := "", rating := 5 }

/-! ## Supporting lemmas -/

theorem mem_stage_filter {p : Product} {l : List Product} {cond : Prop}
    [Decidable cond] {f : Product → Bool} :
    p ∈ (if cond then l else l.filter f) ↔ p ∈ l ∧ (¬cond → f p = true) := by
  split_ifs with h <;> simp [List.mem_filter, h]

theorem mem_price_stage {p : Product} {l : List Product} {pr : Option String} :
    p ∈ (match pr with | some r => filter_by_price_range l r | none => l) ↔
      p ∈ l ∧ (∀ r, pr = some r → ∀ t, price_threshold r = some t → p.price ≤ t) := by
  rcases pr with _ | r
  · simp
  · unfold filter_by_price_range
    rcases h : price_threshold r with _ | t <;>
      simp [List.mem_filter, h]

theorem mem_filter_products {p : Product} {products : List Product}
    {query : String} {prefs : Preferences} :
    p ∈ filter_products_by_preferences products query prefs ↔
      p ∈ products ∧
      (query ≠ "" → queryMatches query p = true) ∧
      (∀ r, prefs.price_range = some r →
        ∀ t, price_threshold r = some t → p.price ≤ t) ∧
      (prefs.brands ≠ ∅ → p.brand ∈ prefs.brands) ∧
      (prefs.categories ≠ ∅ → p.category ∈ prefs.categories) ∧
      (prefs.features ≠ ∅ →
        p.features.any (fun ft => decide (ft ∈ prefs.features)) = true) ∧
      (prefs.excluded_items ≠ ∅ → ∀ e ∈ prefs.excluded_items,
        ¬ containsSub e.data (lowerStr p.name).data = true) := by
  unfold filter_products_by_preferences
  rw [mem_stage_filter, mem_stage_filter, mem_stage_filter, mem_stage_filter,
    mem_price_stage, mem_stage_filter]
  simp only [decide_eq_true_eq, and_assoc]

theorem mem_replChar {old d : Char} {new : List Char} :
    ∀ {l : List Char}, d ∈ replChar old new l → d ∈ new ∨ (d ∈ l ∧ d ≠ old) := by
  intro l
  induction l with
  | nil => intro h; simp [replChar] at h
  | cons c t ih =>
    intro h
    simp only [replChar] at h
    by_cases hc : c = old
    · rw [if_pos hc] at h
      rcases List.mem_append.mp h with h1 | h2
      · exact Or.inl h1
      · rcases ih h2 with h3 | ⟨h4, h5⟩
        · exact Or.inl h3
        · exact Or.inr ⟨List.mem_cons_of_mem _ h4, h5⟩
    · rw [if_neg hc] at h
      rcases List.mem_cons.mp h with h1 | h2
      · subst h1; exact Or.inr ⟨List.mem_cons_self _ _, hc⟩
      · rcases ih h2 with h3 | ⟨h4, h5⟩
        · exact Or.inl h3
        · exact Or.inr ⟨List.mem_cons_of_mem _ h4, h5⟩

theorem mem_crlfPair {d : Char} : ∀ {l : List Char}, d ∈ crlfPair l → d ∈ l := by
  intro l
  induction l using crlfPair.induct with
  | case1 => intro h; simp [crlfPair] at h
  | case2 c => intro h; simpa [crlfPair] using h
  | case3 c c' t hcond ih =>
    intro h
    rw [crlfPair, if_pos hcond] at h
    rcases List.mem_cons.mp h with h1 | h2
    · subst h1; simp [hcond.2]
    · exact List.mem_cons_of_mem _ (List.mem_cons_of_mem _ (ih h2))
  | case4 c c' t hcond ih =>
    intro h
    rw [crlfPair, if_neg hcond] at h
    rcases List.mem_cons.mp h with h1 | h2
    · subst h1; exact List.mem_cons_self _ _
    · exact List.mem_cons_of_mem _ (ih h2)

theorem mem_pyStrip {d : Char} {l : List Char} (h : d ∈ pyStrip l) : d ∈ l := by
  unfold pyStrip at h
  rw [List.mem_reverse] at h
  have h2 := (List.dropWhile_suffix pySpace).sublist.mem h
  rw [List.mem_reverse] at h2
  exact (List.dropWhile_suffix pySpace).sublist.mem h2

theorem pyStrip_head (l : List Char) :
    (pyStrip l).head?.all (fun c => !pySpace c) = true := by
  unfold pyStrip
  rw [List.head?_reverse]
  rcases hC : (l.dropWhile pySpace).reverse.dropWhile pySpace with _ | ⟨c, t⟩
  · simp
  · obtain ⟨pre, hpre⟩ := List.dropWhile_suffix (l := (l.dropWhile pySpace).reverse) pySpace
    rw [hC] at hpre
    have hlast : (pre ++ c :: t).getLast? = (c :: t).getLast? := by
      rw [List.getLast?_append]
      rcases h2 : (c :: t).getLast? with _ | x
      · simp at h2
      · rfl
    have h1 : (c :: t).getLast? = (l.dropWhile pySpace).head? := by
      rw [← hlast, hpre, List.getLast?_reverse]
    rw [h1]
    have h3 := List.head?_dropWhile_not pySpace l
    rcases h4 : (l.dropWhile pySpace).head? with _ | x
    · simp
    · rw [h4] at h3; simp [h3]

theorem pyStrip_getLast (l : List Char) :
    (pyStrip l).getLast?.all (fun c => !pySpace c) = true := by
  unfold pyStrip
  rw [List.getLast?_reverse]
  have h3 := List.head?_dropWhile_not pySpace ((l.dropWhile pySpace).reverse)
  rcases h4 : ((l.dropWhile pySpace).reverse.dropWhile pySpace).head? with _ | x
  · simp
  · rw [h4] at h3; simp [h3]

/-! ## Claim theorems -/

/-- Claim C1 counterexample: merging does not union the `keywords` field and
can shrink it — starting from keywords `{"aa"}` and merging an extraction
carrying keywords `{"bb"}` discards `"aa"` and does not produce the union. -/
theorem merge_keywords_not_union :
    "aa" ∈ ({ keywords := {"aa"} } : Preferences).keywords ∧
    "aa" ∉ (merge_preferences { keywords := {"aa"} } { keywords := {"bb"} }).keywords ∧
    (merge_preferences { keywords := {"aa"} } { keywords := {"bb"} }).keywords ≠
      ({ keywords := {"aa"} } : Preferences).keywords ∪
        ({ keywords := {"bb"} } : Preferences).keywords := by
  refine ⟨by decide, ?_, ?_⟩ <;> decide

/-- Claim C1 (amended): for every existing preferences value and every
incoming extraction, `_merge_preferences` unions the incoming values into
the existing ones for `brands`, `categories`, `features` and
`excluded_items` (so those fields never shrink), overwrites `keywords`
with a non-empty incoming keyword set (an empty one leaves it unchanged),
and for the scalars `price_range` and `quality` a non-null incoming value
overwrites while a null one leaves the field unchanged. -/
theorem merge_preferences_field_laws (P Q : Preferences) :
    (merge_preferences P Q).brands = P.brands ∪ Q.brands ∧
    (merge_preferences P Q).categories = P.categories ∪ Q.categories ∧
    (merge_preferences P Q).features = P.features ∪ Q.features ∧
    (merge_preferences P Q).excluded_items = P.excluded_items ∪ Q.excluded_items ∧
    P.brands ⊆ (merge_preferences P Q).brands ∧
    P.categories ⊆ (merge_preferences P Q).categories ∧
    P.features ⊆ (merge_preferences P Q).features ∧
    P.excluded_items ⊆ (merge_preferences P Q).excluded_items ∧
    (merge_preferences P Q).keywords =
      (if Q.keywords = ∅ then P.keywords else Q.keywords) ∧
    (merge_preferences P Q).price_range = Q.price_range.or P.price_range ∧
    (merge_preferences P Q).quality = Q.quality.or P.quality := by
  have hb : (merge_preferences P Q).brands = P.brands ∪ Q.brands := by
    simp only [merge_preferences]
    by_cases h : Q.brands = ∅ <;> simp [h]
  have hc : (merge_preferences P Q).categories = P.categories ∪ Q.categories := by
    simp only [merge_preferences]
    by_cases h : Q.categories = ∅ <;> simp [h]
  have hf : (merge_preferences P Q).features = P.features ∪ Q.features := by
    simp only [merge_preferences]
    by_cases h : Q.features = ∅ <;> simp [h]
  have he : (merge_preferences P Q).excluded_items =
      P.excluded_items ∪ Q.excluded_items := by
    simp only [merge_preferences]
    by_cases h : Q.excluded_items = ∅ <;> simp [h]
  refine ⟨hb, hc, hf, he, ?_, ?_, ?_, ?_, ?_, ?_, ?_⟩
  · rw [hb]; exact Finset.subset_union_left
  · rw [hc]; exact Finset.subset_union_left
  · rw [hf]; exact Finset.subset_union_left
  · rw [he]; exact Finset.subset_union_left
  · simp only [merge_preferences]
  · simp only [merge_preferences]
    rcases Q.price_range with _ | v <;> simp [Option.or]
  · simp only [merge_preferences]
    rcases Q.quality with _ | v <;> simp [Option.or]

/-- Claim C2: merging the same extracted preferences twice yields the same
result as merging them once. -/
theorem merge_preferences_idempotent (P Q : Preferences) :
    merge_preferences (merge_preferences P Q) Q = merge_preferences P Q := by
  simp only [merge_preferences, Preferences.mk.injEq]
  refine ⟨?_, ?_, ?_, ?_, ?_, ?_, ?_⟩
  · rcases Q.price_range with _ | v <;> simp
  · rcases Q.quality with _ | v <;> simp
  · by_cases h : Q.brands = ∅ <;> simp [h, Finset.union_assoc, Finset.union_self]
  · by_cases h : Q.categories = ∅ <;> simp [h, Finset.union_assoc, Finset.union_self]
  · by_cases h : Q.features = ∅ <;> simp [h, Finset.union_assoc, Finset.union_self]
  · by_cases h : Q.excluded_items = ∅ <;> simp [h, Finset.union_assoc, Finset.union_self]
  · by_cases h : Q.keywords = ∅ <;> simp [h]

/-- Claim C6: the `/api/chat` endpoint appends the user and assistant
messages directly to the conversation history with no truncation, so a
session already holding 100 messages ends the turn with 102 — violating
the documented 100-message bound that `add_conversation_message` (which
the endpoint bypasses) does enforce on the same operation. -/
theorem chat_turn_overflows_history_bound :
    (chat_turn_history (List.replicate 100 ⟨"user", "m", "t"⟩)
        ⟨"user", "u", "t"⟩ ⟨"assistant", "a", "t"⟩).length = 102 ∧
    100 < (chat_turn_history (List.replicate 100 ⟨"user", "m", "t"⟩)
        ⟨"user", "u", "t"⟩ ⟨"assistant", "a", "t"⟩).length ∧
    (add_conversation_message (List.replicate 100 ⟨"user", "m", "t"⟩)
        ⟨"user", "u", "t"⟩).length = 100 := by
  refine ⟨?_, ?_, ?_⟩ <;>
    simp [chat_turn_history, add_conversation_message]

/-- Claim C7: the price filter keeps exactly the products whose price is at
most the ceiling drawn from the fixed five-tier bucket table, and the
`very_high` ceiling is unbounded so that filter excludes nothing. -/
theorem filter_by_price_range_spec (products : List Product) (r : String)
    (p : Product) :
    (p ∈ filter_by_price_range products r ↔
      p ∈ products ∧ (match price_threshold r with
        | some t => p.price ≤ t
        | none => True)) ∧
    filter_by_price_range products "very_high" = products ∧
    price_threshold "very_low" = some 5000 ∧
    price_threshold "low" = some 15000 ∧
    price_threshold "medium" = some 50000 ∧
    price_threshold "high" = some 100000 ∧
    price_threshold "very_high" = none := by
  refine ⟨?_, ?_, rfl, rfl, rfl, rfl, rfl⟩
  · unfold filter_by_price_range
    rcases h : price_threshold r with _ | t <;> simp [List.mem_filter, h]
  · unfold filter_by_price_range
    have h : price_threshold "very_high" = none := rfl
    simp [h]

/-- Claim C9: each pipeline stage degrades an internal fault to its neutral
well-formed fallback instead of raising — the unknown intent at confidence
zero, the empty search result, and the generic apology response. -/
theorem pipeline_stage_fallbacks (m q e : String) (catalog : List Product)
    (prefs : Preferences) (pick : Nat) (sr : SearchResult) :
    analyze_intent_defensive m (some e) = unknown_intent_fallback ∧
    (analyze_intent_defensive m (some e)).intent_type = "unknown" ∧
    (analyze_intent_defensive m (some e)).confidence = 0 ∧
    (analyze_intent_defensive m (some e)).requires_product_search = false ∧
    search_products catalog q prefs (some e) = search_products_fallback q ∧
    (search_products catalog q prefs (some e)).products = [] ∧
    (search_products catalog q prefs (some e)).total_count = 0 ∧
    (search_products catalog q prefs (some e)).query = q ∧
    agg_generate_response pick sr prefs (some e) = agg_generate_response_fallback ∧
    (agg_generate_response pick sr prefs (some e)).message =
      "申し訳ございません。エラーが発生しました。" ∧
    (agg_generate_response pick sr prefs (some e)).products = [] ∧
    (agg_generate_response pick sr prefs (some e)).total_count = 0 ∧
    (agg_generate_response pick sr prefs (some e)).has_products = false :=
  ⟨rfl, rfl, rfl, rfl, rfl, rfl, rfl, rfl, rfl, rfl, rfl, rfl, rfl⟩

/-- Claim C10: for every input, the sanitizer's output contains no angle
brackets and has no leading or trailing whitespace, and empty input maps
to the empty string. -/
theorem sanitize_input_properties (s : String) :
    '<' ∉ (sanitize_input s).data ∧
    '>' ∉ (sanitize_input s).data ∧
    (sanitize_input s).data.head?.all (fun c => !pySpace c) = true ∧
    (sanitize_input s).data.getLast?.all (fun c => !pySpace c) = true ∧
    sanitize_input "" = "" := by
  by_cases hs : s = ""
  · subst hs; refine ⟨by simp [sanitize_input], by simp [sanitize_input], ?_, ?_, rfl⟩ <;>
      simp [sanitize_input]
  · have hdata : (sanitize_input s).data =
        pyStrip (replChar (Char.ofNat 13) [Char.ofNat 10] (crlfPair
          (replChar (Char.ofNat 39) "&#x27;".data
            (replChar (Char.ofNat 34) "&quot;".data
              (replChar '>' "&gt;".data
                (replChar '<' "&lt;".data
                  (replChar '&' "&amp;".data (removeTags s.data)))))))) := by
      simp [sanitize_input, hs]
    refine ⟨?_, ?_, ?_, ?_, rfl⟩
    · intro hmem
      rw [hdata] at hmem
      have h7 := mem_pyStrip hmem
      rcases mem_replChar h7 with h | ⟨h6, _⟩
      · simp at h
      · have h6' := mem_crlfPair h6
        rcases mem_replChar h6' with h | ⟨h5, _⟩
        · revert h; decide
        · rcases mem_replChar h5 with h | ⟨h4, _⟩
          · revert h; decide
          · rcases mem_replChar h4 with h | ⟨h3, _⟩
            · revert h; decide
            · rcases mem_replChar h3 with h | ⟨_, hne⟩
              · revert h; decide
              · exact hne rfl
    · intro hmem
      rw [hdata] at hmem
      have h7 := mem_pyStrip hmem
      rcases mem_replChar h7 with h | ⟨h6, _⟩
      · simp at h
      · have h6' := mem_crlfPair h6
        rcases mem_replChar h6' with h | ⟨h5, _⟩
        · revert h; decide
        · rcases mem_replChar h5 with h | ⟨h4, _⟩
          · revert h; decide
          · rcases mem_replChar h4 with h | ⟨_, hne⟩
            · revert h; decide
            · exact hne rfl
    · rw [hdata]; exact pyStrip_head _
    · rw [hdata]; exact pyStrip_getLast _

/-- Claim C3 counterexample: merging a second brand constraint loosens the
brand-inclusion predicate, so the merged filter is not a subset of the
original one — a Samsung product passes the merged filter `{Apple, Samsung}`
but not the original filter `{Apple}`. -/
theorem filter_not_monotone_under_merge :
    cexSamsung ∈ filter_products_by_preferences [cexSamsung] ""
      (merge_preferences prefsAppleOnly prefsSamsungOnly) ∧
    cexSamsung ∉ filter_products_by_preferences [cexSamsung] "" prefsAppleOnly ∧
    ¬ (∀ x ∈ filter_products_by_preferences [cexSamsung] ""
          (merge_preferences prefsAppleOnly prefsSamsungOnly),
        x ∈ filter_products_by_preferences [cexSamsung] "" prefsAppleOnly) := by
  refine ⟨by decide, by decide, ?_⟩
  intro h
  exact absurd (h cexSamsung (by decide)) (by decide)

/-- Claim C3 (amended): every filter stage has intersection semantics, so
filtering never adds products, empty preference fields impose no
constraint, and the subset law `filter(items, prefs ∪ extra) ⊆
filter(items, prefs)` does hold whenever each constraint field active in
`extra` was inactive in `prefs` (merging into an already-active
`price_range`, `brands`, `categories` or `features` field can loosen that
predicate instead). -/
theorem filter_monotone_fresh_constraints
    (items : List Product) (query : String) (prefs extra : Preferences)
    (hpr : prefs.price_range = none ∨ extra.price_range = none)
    (hb : prefs.brands = ∅ ∨ extra.brands = ∅)
    (hc : prefs.categories = ∅ ∨ extra.categories = ∅)
    (hf : prefs.features = ∅ ∨ extra.features = ∅) :
    (∀ p ∈ filter_products_by_preferences items query
        (merge_preferences prefs extra),
      p ∈ filter_products_by_preferences items query prefs) ∧
    (∀ p ∈ filter_products_by_preferences items query prefs, p ∈ items) ∧
    filter_products_by_preferences items query {} =
      (if query = "" then items else items.filter (queryMatches query)) := by
  obtain ⟨hmb, hmc, hmf, hme, _, _, _, _, hmk, hmpr, hmq⟩ :=
    merge_preferences_field_laws prefs extra
  refine ⟨?_, ?_, rfl⟩
  · intro p hp
    rw [mem_filter_products] at hp ⊢
    obtain ⟨h1, h2, h3, h4, h5, h6, h7⟩ := hp
    refine ⟨h1, h2, ?_, ?_, ?_, ?_, ?_⟩
    · rcases hpr with h | h
      · intro r hr; rw [h] at hr; exact absurd hr (by simp)
      · intro r hr
        refine h3 r ?_
        rw [hmpr, h, Option.or]; exact hr
    · rcases hb with h | h
      · intro hne; exact absurd h hne
      · intro hne
        have heq : (merge_preferences prefs extra).brands = prefs.brands := by
          rw [hmb, h, Finset.union_empty]
        have h4' := h4 (by rw [heq]; exact hne)
        rw [heq] at h4'
        exact h4'
    · rcases hc with h | h
      · intro hne; exact absurd h hne
      · intro hne
        have heq : (merge_preferences prefs extra).categories = prefs.categories := by
          rw [hmc, h, Finset.union_empty]
        have h5' := h5 (by rw [heq]; exact hne)
        rw [heq] at h5'
        exact h5'
    · rcases hf with h | h
      · intro hne; exact absurd h hne
      · intro hne
        have heq : (merge_preferences prefs extra).features = prefs.features := by
          rw [hmf, h, Finset.union_empty]
        have h6' := h6 (by rw [heq]; exact hne)
        rw [heq] at h6'
        exact h6'
    · intro hne e he
      have hsub : prefs.excluded_items ⊆ (merge_preferences prefs extra).excluded_items := by
        rw [hme]; exact Finset.subset_union_left
      have hne2 : (merge_preferences prefs extra).excluded_items ≠ ∅ := by
        intro hz
        obtain ⟨x, hx⟩ := Finset.nonempty_iff_ne_empty.mpr hne
        exact Finset.not_mem_empty x (hz ▸ hsub hx)
      exact h7 hne2 e (hsub he)
  · intro p hp
    exact (mem_filter_products.mp hp).1

/-- Claim C3 witness: the amended monotonicity theorem instantiated at a
concrete catalogue, query and preference pair. -/
theorem filter_monotone_fresh_constraints_witness :
    filter_products_by_preferences [cexSamsung] "xyz" {} =
      [cexSamsung].filter (queryMatches "xyz") := by
  have h := filter_monotone_fresh_constraints [cexSamsung] "xyz" prefsAppleOnly
    extraFeatures (Or.inl rfl) (Or.inr rfl) (Or.inl rfl) (Or.inl rfl)
  rw [h.2.2]
  decide

theorem calculate_similarity_nonneg (t1 t2 : String) :
    0 ≤ calculate_similarity t1 t2 := by
  simp only [calculate_similarity]
  split_ifs <;> positivity

theorem calculate_similarity_le_one (t1 t2 : String) :
    calculate_similarity t1 t2 ≤ 1 := by
  simp only [calculate_similarity]
  split_ifs with h1 h2 h3
  · norm_num
  · norm_num
  · rw [div_le_one (by exact_mod_cast h3)]
    exact_mod_cast Finset.card_le_card
      (Finset.inter_subset_left.trans Finset.subset_union_left)
  · norm_num

theorem calculate_similarity_empty_right (t : String) :
    calculate_similarity t "" = 0 := by
  unfold calculate_similarity
  simp

theorem calculate_similarity_empty_left (t : String) :
    calculate_similarity "" t = 0 := by
  unfold calculate_similarity
  rw [if_pos (Or.inl rfl)]

theorem relevance_score_eq (q : String) (p : Product) :
    relevance_score q p = calculate_similarity q p.name * (2/5) +
      calculate_similarity q p.description * (3/10) +
      calculate_similarity q p.category * (1/5) + p.rating * (1/10) := by
  unfold relevance_score
  by_cases h1 : p.name = "" <;> by_cases h2 : p.description = "" <;>
    by_cases h3 : p.category = "" <;>
    simp [h1, h2, h3, calculate_similarity_empty_right]

theorem relevance_score_bounds (q : String) (p : Product)
    (h0 : 0 ≤ p.rating) (h5 : p.rating ≤ 5) :
    0 ≤ relevance_score q p ∧ relevance_score q p ≤ 7/5 := by
  rw [relevance_score_eq]
  have n1 := calculate_similarity_nonneg q p.name
  have n2 := calculate_similarity_nonneg q p.description
  have n3 := calculate_similarity_nonneg q p.category
  have u1 := calculate_similarity_le_one q p.name
  have u2 := calculate_similarity_le_one q p.description
  have u3 := calculate_similarity_le_one q p.category
  constructor <;> nlinarith

/-- Claim C4 counterexample: with an empty query the ranker returns the
input unchanged instead of sorting by the score (here `0.1·rating`), so
the claimed descending order fails — the rating-`0` product stays ahead
of the rating-`5` product. -/
theorem sort_relevance_not_sorted_for_empty_query :
    sort_products_by_relevance [cexRatingZero, cexRatingFive] "" =
      [cexRatingZero, cexRatingFive] ∧
    relevance_score "" cexRatingZero < relevance_score "" cexRatingFive ∧
    ¬ (sort_products_by_relevance [cexRatingZero, cexRatingFive] "").Pairwise
        (fun a b => relevance_score "" b ≤ relevance_score "" a) := by
  have hz : relevance_score "" cexRatingZero = 0 := by
    rw [relevance_score_eq, calculate_similarity_empty_left,
      calculate_similarity_empty_left, calculate_similarity_empty_left]
    norm_num [cexRatingZero]
  have hf : relevance_score "" cexRatingFive = 1/2 := by
    rw [relevance_score_eq, calculate_similarity_empty_left,
      calculate_similarity_empty_left, calculate_similarity_empty_left]
    norm_num [cexRatingFive]
  have hs : sort_products_by_relevance [cexRatingZero, cexRatingFive] "" =
      [cexRatingZero, cexRatingFive] := by
    unfold sort_products_by_relevance
    rw [if_pos (Or.inr rfl)]
  refine ⟨hs, by rw [hz, hf]; norm_num, ?_⟩
  intro h
  rw [hs] at h
  have h2 := List.rel_of_pairwise_cons h (List.mem_singleton.mpr rfl)
  rw [hz, hf] at h2
  norm_num at h2

/-- Claim C4 (amended): for a non-empty query the ranker scores every
product with `0.4·J(query,name) + 0.3·J(query,description) +
0.2·J(query,category) + 0.1·rating`, returns a permutation of its input
sorted descending by that score, keeps equal-score products in their
original relative order, and the score is bounded by `[0, 1.4]` whenever
the rating lies in `[0, 5]`; with an empty query (or an empty product
list) the input is returned unchanged. -/
theorem sort_products_by_relevance_spec (products : List Product)
    (query : String) (hq : query ≠ "") :
    List.Perm (sort_products_by_relevance products query) products ∧
    (sort_products_by_relevance products query).Pairwise
      (fun a b => relevance_score query b ≤ relevance_score query a) ∧
    (∀ a b, relevance_score query a = relevance_score query b →
      List.Sublist [a, b] products →
      List.Sublist [a, b] (sort_products_by_relevance products query)) ∧
    (∀ p, 0 ≤ p.rating → p.rating ≤ 5 →
      0 ≤ relevance_score query p ∧ relevance_score query p ≤ 7/5) ∧
    (∀ p, relevance_score query p =
      calculate_similarity query p.name * (2/5) +
      calculate_similarity query p.description * (3/10) +
      calculate_similarity query p.category * (1/5) + p.rating * (1/10)) := by
  have trans : ∀ (a b c : Product),
      (fun a b => decide (relevance_score query b ≤ relevance_score query a)) a b →
      (fun a b => decide (relevance_score query b ≤ relevance_score query a)) b c →
      (fun a b => decide (relevance_score query b ≤ relevance_score query a)) a c := by
    intro a b c hab hbc
    simp only [decide_eq_true_eq] at hab hbc ⊢
    exact hbc.trans hab
  have total : ∀ (a b : Product),
      ((fun a b => decide (relevance_score query b ≤ relevance_score query a)) a b ||
       (fun a b => decide (relevance_score query b ≤ relevance_score query a)) b a) := by
    intro a b
    simp only [Bool.or_eq_true, decide_eq_true_eq]
    exact (le_total (relevance_score query b) (relevance_score query a)).imp id id
  by_cases hp : products = []
  · subst hp
    have hsort : sort_products_by_relevance [] query = [] := by
      unfold sort_products_by_relevance
      simp
    rw [hsort]
    refine ⟨List.Perm.refl _, List.Pairwise.nil, ?_, ?_, ?_⟩
    · intro a b _ hsub
      exact absurd (List.sublist_nil.mp hsub) (by simp)
    · exact fun p h0 h5 => relevance_score_bounds query p h0 h5
    · exact fun p => relevance_score_eq query p
  · have hsort : sort_products_by_relevance products query =
        products.mergeSort
          (fun a b => decide (relevance_score query b ≤ relevance_score query a)) := by
      unfold sort_products_by_relevance
      rw [if_neg]
      simp [hp, hq]
    rw [hsort]
    refine ⟨List.mergeSort_perm products _, ?_, ?_, ?_, ?_⟩
    · exact (List.sorted_mergeSort trans total products).imp
        (fun h => of_decide_eq_true h)
    · intro a b heq hsub
      exact List.pair_sublist_mergeSort trans total
        (decide_eq_true (le_of_eq heq.symm)) hsub
    · exact fun p h0 h5 => relevance_score_bounds query p h0 h5
    · exact fun p => relevance_score_eq query p

/-- Claim C4 witness: the ranking specification instantiated at a concrete
catalogue and query. -/
theorem sort_products_by_relevance_spec_witness :
    List.Perm (sort_products_by_relevance [cexRatingZero, cexRatingFive] "beta")
      [cexRatingZero, cexRatingFive] ∧
    0 ≤ relevance_score "beta" cexRatingZero ∧
    relevance_score "beta" cexRatingZero ≤ 7/5 := by
  have h := sort_products_by_relevance_spec [cexRatingZero, cexRatingFive]
    "beta" (by decide)
  exact ⟨h.1, (h.2.2.2.1 cexRatingZero (by decide) (by decide)).1,
    (h.2.2.2.1 cexRatingZero (by decide) (by decide)).2⟩

/-- Claim C5: intent classification tests the categories in the fixed
precedence order greeting, farewell, help, search intent, question, with
the fixed confidences 0.9, 0.9, 0.8, 0.7, 0.6, defaulting to
`product_search` at confidence 0.5; and for the message "こんにちは" the
intent is `greeting` at confidence 0.9 with `requires_action = false` in
the produced chat response. -/
theorem analyze_intent_precedence (m : String) :
    (matchesAny greeting_patterns (sanitize_input m) = true →
      (analyze_intent m).intent_type = "greeting" ∧
      (analyze_intent m).confidence = 9/10 ∧
      (analyze_intent m).requires_product_search = false) ∧
    (matchesAny greeting_patterns (sanitize_input m) = false →
      matchesAny farewell_patterns (sanitize_input m) = true →
      (analyze_intent m).intent_type = "farewell" ∧
      (analyze_intent m).confidence = 9/10) ∧
    (matchesAny greeting_patterns (sanitize_input m) = false →
      matchesAny farewell_patterns (sanitize_input m) = false →
      matchesAny help_patterns (sanitize_input m) = true →
      (analyze_intent m).intent_type = "help" ∧
      (analyze_intent m).confidence = 8/10) ∧
    (matchesAny greeting_patterns (sanitize_input m) = false →
      matchesAny farewell_patterns (sanitize_input m) = false →
      matchesAny help_patterns (sanitize_input m) = false →
      matchesAny search_intent_patterns (sanitize_input m) = true →
      (analyze_intent m).intent_type = "product_search" ∧
      (analyze_intent m).confidence = 7/10 ∧
      (analyze_intent m).requires_product_search = true) ∧
    (matchesAny greeting_patterns (sanitize_input m) = false →
      matchesAny farewell_patterns (sanitize_input m) = false →
      matchesAny help_patterns (sanitize_input m) = false →
      matchesAny search_intent_patterns (sanitize_input m) = false →
      (question_indicators.any
        (fun q => containsSub q.data (lowerStr (sanitize_input m)).data)) = true →
      (analyze_intent m).intent_type = "question" ∧
      (analyze_intent m).confidence = 6/10) ∧
    (matchesAny greeting_patterns (sanitize_input m) = false →
      matchesAny farewell_patterns (sanitize_input m) = false →
      matchesAny help_patterns (sanitize_input m) = false →
      matchesAny search_intent_patterns (sanitize_input m) = false →
      (question_indicators.any
        (fun q => containsSub q.data (lowerStr (sanitize_input m)).data)) = false →
      (analyze_intent m).intent_type = "product_search" ∧
      (analyze_intent m).confidence = 5/10 ∧
      (analyze_intent m).requires_product_search = true) ∧
    (analyze_intent "こんにちは").intent_type = "greeting" ∧
    (analyze_intent "こんにちは").confidence = 9/10 ∧
    (generate_response 0 "こんにちは").requires_action = false := by
  refine ⟨?_, ?_, ?_, ?_, ?_, ?_, ?_, ?_, ?_⟩
  · intro h1
    simp [analyze_intent, h1]
  · intro h1 h2
    simp [analyze_intent, h1, h2]
  · intro h1 h2 h3
    simp [analyze_intent, h1, h2, h3]
  · intro h1 h2 h3 h4
    simp [analyze_intent, h1, h2, h3, h4]
  · intro h1 h2 h3 h4 h5
    simp [analyze_intent, h1, h2, h3, h4, h5]
  · intro h1 h2 h3 h4 h5
    simp [analyze_intent, h1, h2, h3, h4, h5]
  · have hg : matchesAny greeting_patterns (sanitize_input "こんにちは") = true := by
      decide
    simp [analyze_intent, hg]
  · have hg : matchesAny greeting_patterns (sanitize_input "こんにちは") = true := by
      decide
    simp [analyze_intent, hg]
  · have hg : matchesAny greeting_patterns (sanitize_input "こんにちは") = true := by
      decide
    simp [generate_response, analyze_intent, hg]

/-- Claim C5 witness: the precedence theorem applied to the concrete
greeting message "hello". -/
theorem analyze_intent_precedence_witness :
    (analyze_intent "hello").intent_type = "greeting" ∧
    (analyze_intent "hello").confidence = 9/10 ∧
    (analyze_intent "hello").requires_product_search = false :=
  (analyze_intent_precedence "hello").1 (by decide)

theorem multiPool_length (prefs : Preferences) : (multiPool prefs).length = 3 := by
  unfold multiPool agg_response_templates
  split_ifs <;> rfl

set_option maxRecDepth 8192 in
/-- Claim C8 counterexample: the many-results branch omits the rating line
for a product whose rating is not positive, so the response does not
render index, price *and* rating for each of the top products — here a
two-item rating-0 result under a `low` price preference renders prices
but no rating at all. -/
theorem multiple_results_missing_rating :
    containsSub "評価".data
      (generate_multiple_results_response 0 [cexRatingZero, cexRatingZero]
        { price_range := some "low" } 2).data = false ∧
    containsSub "1. ".data
      (generate_multiple_results_response 0 [cexRatingZero, cexRatingZero]
        { price_range := some "low" } 2).data = true ∧
    containsSub (format_price cexRatingZero.price).data
      (generate_multiple_results_response 0 [cexRatingZero, cexRatingZero]
        { price_range := some "low" } 2).data = true := by
  refine ⟨?_, ?_, ?_⟩ <;> decide

/-- Claim C8 (amended): the many-results response draws its template from
the price-focused pool when `price_range = low`, from the quality-focused
pool when (otherwise) `quality = high`, and from the generic pool
otherwise; it renders at most the first three products — each block
carrying its 1-based index, its formatted price, and its rating exactly
when the rating is positive — and appends the overflow note stating
`total_count - 3` exactly when that count exceeds three. -/
theorem multiple_results_response_spec (pick : Nat) (products : List Product)
    (prefs : Preferences) (total : Nat) :
    (prefs.price_range = some "low" →
      multiPool prefs = agg_response_templates "price_focus") ∧
    (prefs.price_range ≠ some "low" → prefs.quality = some "high" →
      multiPool prefs = agg_response_templates "quality_focus") ∧
    (prefs.price_range ≠ some "low" → prefs.quality ≠ some "high" →
      multiPool prefs = agg_response_templates "multiple_results") ∧
    randomChoice (multiPool prefs) pick ∈ multiPool prefs ∧
    generate_multiple_results_response pick products prefs total =
      generate_multiple_results_response pick (products.take 3) prefs total ∧
    generate_multiple_results_response pick products prefs total =
      randomChoice (multiPool prefs) pick ++ "\n" ++ "検索結果: " ++
        toString total ++ "件\n\n" ++ renderBlocks 1 (products.take 3) ++
        (if 3 < total then
          "他にも" ++ toString (total - 3) ++ "件の商品があります。詳細は商品一覧をご確認ください。"
        else "") ∧
    (∀ idx p, productBlock idx p =
      toString idx ++ ". " ++ p.name ++ "\n" ++ "   価格: " ++
        format_price p.price ++ "\n" ++
        (if 0 < p.rating then "   評価: " ++ ratingStr p.rating ++ "/5.0\n" else "") ++
        "\n") := by
  refine ⟨?_, ?_, ?_, ?_, ?_, ?_, ?_⟩
  · intro h; simp [multiPool, h]
  · intro h1 h2; simp [multiPool, h1, h2]
  · intro h1 h2; simp [multiPool, h1, h2]
  · have hlt : pick % (multiPool prefs).length < (multiPool prefs).length := by
      rw [multiPool_length]; exact Nat.mod_lt _ (by norm_num)
    rw [randomChoice, List.getD_eq_getElem _ _ hlt]
    exact List.getElem_mem hlt
  · simp only [generate_multiple_results_response, List.take_take, Nat.min_self]
  · unfold generate_multiple_results_response
    by_cases h : 3 < total
    · simp only [if_pos h, String.append_assoc]
    · simp only [if_neg h, String.append_empty]
  · intro idx p; rfl

/-- Claim C8 witness: the many-results specification at a concrete 9-item
result set under a `low` price preference — the template is drawn from
the price-focused pool, and the overflow note reports 6 remaining items. -/
theorem multiple_results_response_spec_witness :
    multiPool { price_range := some "low" } = agg_response_templates "price_focus" ∧
    randomChoice (multiPool { price_range := some "low" }) 0 ∈
      multiPool { price_range := some "low" } ∧
    generate_multiple_results_response 0 (List.replicate 9 cexRatingFive)
        { price_range := some "low" } 9 =
      randomChoice (multiPool { price_range := some "low" }) 0 ++ "\n" ++
        "検索結果: " ++ toString 9 ++ "件\n\n" ++
        renderBlocks 1 ((List.replicate 9 cexRatingFive).take 3) ++
        ("他にも" ++ toString (9 - 3) ++ "件の商品があります。詳細は商品一覧をご確認ください。") := by
  have h := multiple_results_response_spec 0 (List.replicate 9 cexRatingFive)
    { price_range := some "low" } 9
  refine ⟨h.1 rfl, h.2.2.2.1, ?_⟩
  rw [h.2.2.2.2.2.1]
  norm_num

end ShopHelper
